import Mathlib

/-!
Verification of the virtual-battery simulator: a shallow embedding of
`battery_model.py`, `battery_controller.py` and the simulation loop of
`virtual_battery.py`, with theorems settling the specification's claims.

Python floats are embedded as rationals (`ℚ`), so all arithmetic is exact.
The one float operation with an irrational result, `math.sqrt`, is handled
by passing the square root as an explicit argument and characterising it by
the hypotheses `0 ≤ e` and `e * e = round_trip_efficiency` in theorems.
-/

/-- Errors signalled by `Battery.charge` (the three `assert` statements in
`battery_model.py`, in source order). -/
inductive ChargeError where
  | InvalidRequest
  | OverDischarge
  | OverCharge
deriving Repr, DecidableEq

/-- The `Battery` class of `battery_model.py`: the constant physical
parameters together with the mutable `state_of_charge` and the two derived
fields recomputed by `_update_charge_values`. -/
structure Battery where
  model_name : String
  max_capacity : ℚ
  max_charge_rate : ℚ
  state_of_charge : ℚ
  round_trip_efficiency : ℚ
  charge_efficiency : ℚ
  available_to_discharge : ℚ
  available_store_cap : ℚ
deriving Repr, DecidableEq

/-- `Battery._update_charge_values`: sets `state_of_charge` to the proposed
value and recomputes the two derived fields from it. -/
def Battery.update_charge_values (b : Battery) (proposed_charge : ℚ) : Battery :=
  { b with
    state_of_charge := proposed_charge
    available_to_discharge := proposed_charge * b.charge_efficiency
    available_store_cap := (b.max_capacity - proposed_charge) / b.charge_efficiency }

/-- `Battery.__init__`. Python computes
`charge_efficiency = math.sqrt(round_trip_efficiency)`; the square root of a
rational is not rational in general, so the embedding receives
`charge_efficiency` as an explicit argument and theorems about constructed
batteries carry the hypotheses `0 ≤ charge_efficiency` and
`charge_efficiency * charge_efficiency = round_trip_efficiency` that
characterise `math.sqrt` exactly.  No validation whatsoever is performed on
`initial_state_of_charge`, mirroring the source. -/
def Battery.init (model_name : String) (max_capacity max_charge_rate
    initial_state_of_charge round_trip_efficiency charge_efficiency : ℚ) : Battery :=
  Battery.update_charge_values
    { model_name := model_name
      max_capacity := max_capacity
      max_charge_rate := max_charge_rate
      state_of_charge := 0
      round_trip_efficiency := round_trip_efficiency
      charge_efficiency := charge_efficiency
      available_to_discharge := 0
      available_store_cap := 1 }
    initial_state_of_charge

/-- The `proposed_charge` computed inside `Battery.charge`: efficiency is
multiplied on a charge (`request >= 0`) and divided on a discharge. -/
def Battery.proposed (b : Battery) (request : ℚ) : ℚ :=
  if 0 ≤ request then b.state_of_charge + request * b.charge_efficiency
  else b.state_of_charge + request / b.charge_efficiency

/-- `Battery.charge`: checks the rate precondition, computes the proposed
charge with the efficiency loss applied, checks the `[0, max_capacity]`
bounds (in the source's assert order), and only then mutates the battery via
`_update_charge_values`.  A failed assert leaves the battery untouched. -/
def Battery.charge (b : Battery) (request : ℚ) : Except ChargeError Battery :=
  if ¬ (|request| ≤ b.max_charge_rate) then .error .InvalidRequest
  else
    let proposed_charge := b.proposed request
    if ¬ (0 ≤ proposed_charge) then .error .OverDischarge
    else if ¬ (proposed_charge ≤ b.max_capacity) then .error .OverCharge
    else .ok (b.update_charge_values proposed_charge)

/-- A sequence of `charge` calls, aborting at the first failed assert
(each call in the simulation is applied to the battery left by the
previous one). -/
def Battery.chargeSeq (b : Battery) : List ℚ → Except ChargeError Battery
  | [] => .ok b
  | r :: rs =>
    match b.charge r with
    | .error e => .error e
    | .ok b' => b'.chargeSeq rs

/-- Well-formedness of the derived fields: what `_update_charge_values`
establishes and every battery produced by `init` or a successful `charge`
satisfies. -/
def Battery.WF (b : Battery) : Prop :=
  b.available_to_discharge = b.state_of_charge * b.charge_efficiency ∧
  b.available_store_cap = (b.max_capacity - b.state_of_charge) / b.charge_efficiency

instance (b : Battery) : Decidable b.WF := by
  unfold Battery.WF
  infer_instance

/-- A pandas timestamp as the controllers consume it: the calendar fields
used to build the day selector string, the hour of day, and `dayofweek`
(pandas convention: Monday = 0, ..., Sunday = 6). -/
structure Datetime where
  year : ℕ
  month : ℕ
  day : ℕ
  hour : ℕ
  dayofweek : ℕ
deriving Repr, DecidableEq

/-- One row of the model dataframe, carrying the two columns the
controllers read: `Usage (kWh)` and `Apparent Price ($/kWh)`. -/
structure Row where
  dt : Datetime
  usage : ℚ
  apparent_price : ℚ
deriving Repr, DecidableEq

/-- `df['Usage (kWh)'].loc[cur_datetime]`: lookup of the usage value at a
timestamp; `none` models the `KeyError` pandas raises on a missing index. -/
def usageAt (df : List Row) (t : Datetime) : Option ℚ :=
  (df.find? (fun r => r.dt = t)).map Row.usage

/-- `df["Apparent Price ($/kWh)"].loc[cur_datetime]`. -/
def priceAt (df : List Row) (t : Datetime) : Option ℚ :=
  (df.find? (fun r => r.dt = t)).map Row.apparent_price

/-- `df.loc[cur_timestring]` for the string `"year-month-day"`: the rows of
`cur_datetime`'s own calendar day. -/
def dayRows (df : List Row) (t : Datetime) : List Row :=
  df.filter (fun r => r.dt.year = t.year ∧ r.dt.month = t.month ∧ r.dt.day = t.day)

/-- The `controller_peaksimple` class: its two construction-time
parameters, immutable afterwards. -/
structure controller_peaksimple where
  peak_hours : List ℕ
  trough_hour : ℕ
deriving Repr, DecidableEq

/-- `controller_peaksimple.decide`: discharge during weekday peak hours
(bounded by rate, availability and that hour's usage), charge at the
maximal feasible rate at or after the trough hour, otherwise hold.  The
usage lookup happens only in the peak branch, exactly as in the source;
`none` models a `KeyError`.  The function reads the battery and mutates
nothing. -/
def controller_peaksimple.decide (c : controller_peaksimple) (df : List Row)
    (cur_datetime : Datetime) (battery_obj : Battery) : Option ℚ :=
  if cur_datetime.hour ∈ c.peak_hours ∧ cur_datetime.dayofweek ≤ 4 then
    (usageAt df cur_datetime).map (fun u =>
      -1 * min battery_obj.max_charge_rate (min battery_obj.available_to_discharge u))
  else if c.trough_hour ≤ cur_datetime.hour then
    some (min battery_obj.max_charge_rate battery_obj.available_store_cap)
  else
    some 0

/-- Insert into a sorted list (ascending). -/
def sortedInsert (x : ℚ) : List ℚ → List ℚ
  | [] => [x]
  | y :: ys => if x ≤ y then x :: y :: ys else y :: sortedInsert x ys

/-- Ascending insertion sort, used to embed the sorting pandas performs
inside `Series.quantile`. -/
def sortQ : List ℚ → List ℚ
  | [] => []
  | x :: xs => sortedInsert x (sortQ xs)

/-- `pandas.Series.quantile` with its default linear interpolation: with
the `n` values sorted ascending and `pos = q * (n - 1)`, the result
interpolates between the values at `⌊pos⌋` and `⌊pos⌋ + 1`.  Pandas
returns NaN on an empty series; this embedding returns `0` there, a case
no claim exercises. -/
def quantile (xs : List ℚ) (q : ℚ) : ℚ :=
  let s := sortQ xs
  let n := s.length
  if n = 0 then 0
  else
    let pos : ℚ := q * (n - 1)
    let i : ℕ := (⌊pos⌋).toNat
    let lo := s.getD i 0
    let hi := s.getD (i + 1) lo
    lo + (pos - (i : ℚ)) * (hi - lo)

/-- The `controller_dailythresh` class: the two construction-time quantile
parameters and the mutable cached threshold prices (class-level defaults
`1` and `0` before `update_thresh` runs). -/
structure controller_dailythresh where
  thresh_high_quant : ℚ
  thresh_low_quant : ℚ
  thresh_high_price : ℚ
  thresh_low_price : ℚ
deriving Repr, DecidableEq

/-- `controller_dailythresh.update_thresh`: recompute both cached threshold
prices as quantiles of the `Apparent Price ($/kWh)` column of the given
dataframe. -/
def controller_dailythresh.update_thresh (c : controller_dailythresh)
    (df : List Row) : controller_dailythresh :=
  { c with
    thresh_high_price := quantile (df.map Row.apparent_price) c.thresh_high_quant
    thresh_low_price := quantile (df.map Row.apparent_price) c.thresh_low_quant }

/-- `controller_dailythresh.__init__`: stores the quantile parameters and
seeds the thresholds by calling `update_thresh` on the dataframe it was
handed — in `simulate` that is the full `result_df`, so the seed quantiles
range over the whole series. -/
def controller_dailythresh.init (df : List Row)
    (thresh_high_quant thresh_low_quant : ℚ) : controller_dailythresh :=
  controller_dailythresh.update_thresh
    { thresh_high_quant := thresh_high_quant
      thresh_low_quant := thresh_low_quant
      thresh_high_price := 1
      thresh_low_price := 0 } df

/-- `controller_dailythresh.decide`: at hour-of-day 0 first recompute the
thresholds from `df.loc["year-month-day"]` (the current calendar day's rows
only), then compare the current apparent price against the cached
thresholds.  The updated controller is returned alongside the request,
modelling the in-place mutation of the cached thresholds; `none` models a
pandas `KeyError` on a missing timestamp. -/
def controller_dailythresh.decide (c : controller_dailythresh) (df : List Row)
    (cur_datetime : Datetime) (battery_obj : Battery) :
    Option (ℚ × controller_dailythresh) :=
  let c1 := if cur_datetime.hour = 0 then c.update_thresh (dayRows df cur_datetime) else c
  match priceAt df cur_datetime with
  | none => none
  | some cur_price =>
    if c1.thresh_high_price < cur_price then
      (usageAt df cur_datetime).map (fun u =>
        (-1 * min battery_obj.max_charge_rate (min battery_obj.available_to_discharge u), c1))
    else if cur_price < c1.thresh_low_price then
      some (min battery_obj.max_charge_rate battery_obj.available_store_cap, c1)
    else
      some (0, c1)

/-- The failure of `make_controller` on an unrecognised `controller_type`:
neither `if` branch assigns `obj`, so `return obj` raises Python's
`UnboundLocalError` during construction — the error the specification's
taxonomy names `UnknownControllerType`. -/
inductive MakeControllerError where
  | UnknownControllerType
deriving Repr, DecidableEq

/-- The closed sum of the two implemented controller variants. -/
inductive Controller where
  | peaksimple (c : controller_peaksimple)
  | dailythresh (c : controller_dailythresh)
deriving Repr, DecidableEq

/-- Dispatching `decide` over the two variants.  `controller_peaksimple`
has no mutable state, so its controller is returned unchanged; the
threshold controller's updated cached state is threaded through. -/
def Controller.decide : Controller → List Row → Datetime → Battery →
    Option (ℚ × Controller)
  | .peaksimple c, df, t, b =>
    (controller_peaksimple.decide c df t b).map (fun q => (q, .peaksimple c))
  | .dailythresh c, df, t, b =>
    (controller_dailythresh.decide c df t b).map (fun p => (p.1, .dailythresh p.2))

/-- `make_controller` of `battery_controller.py`: selects the variant by
the `controller_type` string.  The source's `if/elif` has no `else`
branch, so any other string leaves `obj` unassigned and `return obj`
raises at construction time; that failure is the `.error` case here. -/
def make_controller (controller_type : String) (df : List Row)
    (thresh_high_quant thresh_low_quant : ℚ) (peak_hours : List ℕ)
    (trough_hour : ℕ) : Except MakeControllerError Controller :=
  if controller_type = "daily_threshold" then
    .ok (.dailythresh (controller_dailythresh.init df thresh_high_quant thresh_low_quant))
  else if controller_type = "simple_peak" then
    .ok (.peaksimple { peak_hours := peak_hours, trough_hour := trough_hour })
  else
    .error .UnknownControllerType

/-- A failure that aborts `simulate`: a `Battery.charge` assert, or a
missing timestamp in a column lookup. -/
inductive SimError where
  | chargeError (e : ChargeError)
  | keyError
deriving Repr, DecidableEq

/-- One record of `result_df` as filled in by `step_result_df`: the
beginning-of-hour battery state columns and the charge decision, alongside
the input row they were recorded into. -/
structure ResultRow where
  row : Row
  state_of_charge : ℚ
  available_to_discharge : ℚ
  available_store_cap : ℚ
  charge_decision : ℚ
deriving Repr, DecidableEq

/-- `step_result_df` inside `simulate`: record the beginning-of-hour
battery state, obtain the controller's decision for this row's timestamp,
then apply it with `battery.charge` and record it. -/
def step_result_df (df : List Row) (b : Battery) (c : Controller) (r : Row) :
    Except SimError (ResultRow × Battery × Controller) :=
  match c.decide df r.dt b with
  | none => .error .keyError
  | some (charge_decision, c') =>
    match b.charge charge_decision with
    | .error e => .error (.chargeError e)
    | .ok b' =>
      .ok ({ row := r
             state_of_charge := b.state_of_charge
             available_to_discharge := b.available_to_discharge
             available_store_cap := b.available_store_cap
             charge_decision := charge_decision }, b', c')

/-- The row-by-row application of `step_result_df` over the dataframe
(`result_df.apply(..., axis=1)`), in index order: each hour's step runs on
the battery and controller state left by the previous hour, and the first
failed assert aborts the whole run. -/
def simLoop (df : List Row) (b : Battery) (c : Controller) :
    List Row → Except SimError (List ResultRow × Battery × Controller)
  | [] => .ok ([], b, c)
  | r :: rs =>
    match step_result_df df b c r with
    | .error e => .error e
    | .ok (rr, b', c') =>
      match simLoop df b' c' rs with
      | .error e => .error e
      | .ok (res, bf, cf) => .ok (rr :: res, bf, cf)

/-- The post-fold column assignment
`result_df["Net Electricity Purchased (kWh)"] = Usage + Charge Decision`:
each result row paired with its net-electricity-purchased value. -/
def withNet (res : List ResultRow) : List (ResultRow × ℚ) :=
  res.map (fun rr => (rr, rr.row.usage + rr.charge_decision))

/-- The simulation core of `simulate` in `virtual_battery.py`: fold
`step_result_df` over every row of the series in order (the dataframe the
controller reads is the same series being stepped), then append the net
electricity purchased column. -/
def simulate (df : List Row) (b : Battery) (c : Controller) :
    Except SimError (List (ResultRow × ℚ)) :=
  match simLoop df b c df with
  | .error e => .error e
  | .ok (res, _, _) => .ok (withNet res)

/-- The round-trip experiment on a battery: charge by `x`, then discharge
the full resulting `available_to_discharge`, returning the final state of
charge (`none` if either `charge` call fails an assert). -/
def chargeThenDischargeAll (b : Battery) (x : ℚ) : Option ℚ :=
  (b.charge x).toOption.bind (fun b1 =>
    (b1.charge (-1 * b1.available_to_discharge)).toOption.map Battery.state_of_charge)

/-- The per-hour stepping discipline of `simulate`, row by row in series
order: for each row exactly one decision is taken and exactly one
`Battery.charge` call is applied, and the result record stores the
battery's beginning-of-hour state together with that decision.  The chain
threads the battery and controller left by each hour into the next. -/
inductive StepChain (df : List Row) :
    Battery → Controller → List Row → List ResultRow → Battery → Controller → Prop
  | nil (b : Battery) (c : Controller) : StepChain df b c [] [] b c
  | cons (b : Battery) (c : Controller) (r : Row) (rs : List Row) (rr : ResultRow)
      (res : List ResultRow) (bf b' : Battery) (cf c' : Controller) (q : ℚ)
      (hrow : rr.row = r)
      (hsoc : rr.state_of_charge = b.state_of_charge)
      (hatd : rr.available_to_discharge = b.available_to_discharge)
      (hasc : rr.available_store_cap = b.available_store_cap)
      (hdec : rr.charge_decision = q)
      (hdecide : c.decide df r.dt b = some (q, c'))
      (hcharge : b.charge q = .ok b')
      (hrest : StepChain df b' c' rs res bf cf) :
      StepChain df b c (r :: rs) (rr :: res) bf cf

/-- A concrete two-day hourly series (2018-01-01 with apparent prices 1, 2
and 2018-01-02 with apparent prices 5, 6), used to separate the whole
series' quantiles from the first day's quantiles. -/
def dfTwoDays : List Row :=
  [⟨⟨2018, 1, 1, 0, 0⟩, 1, 1⟩, ⟨⟨2018, 1, 1, 1, 0⟩, 1, 2⟩,
   ⟨⟨2018, 1, 2, 0, 1⟩, 1, 5⟩, ⟨⟨2018, 1, 2, 1, 1⟩, 1, 6⟩]

theorem Battery.charge_ok_soc (b : Battery) (request : ℚ) (b' : Battery)
    (h : b.charge request = .ok b') :
    b' = b.update_charge_values (b.proposed request) ∧
    0 ≤ b.proposed request ∧ b.proposed request ≤ b.max_capacity ∧
    |request| ≤ b.max_charge_rate := by
  unfold Battery.charge at h
  by_cases h1 : |request| ≤ b.max_charge_rate
  · simp only [h1, not_true, if_neg, if_false] at h
    by_cases h2 : 0 ≤ b.proposed request
    · by_cases h3 : b.proposed request ≤ b.max_capacity
      · simp only [h2, h3, not_true, if_false] at h
        exact ⟨by injection h with h; exact h.symm, h2, h3, h1⟩
      · simp [h2, h3] at h
    · simp [h2] at h
  · simp [h1] at h

theorem Battery.charge_ok_fields (b : Battery) (request : ℚ) (b' : Battery)
    (h : b.charge request = .ok b') :
    b'.state_of_charge = b.proposed request ∧
    b'.max_capacity = b.max_capacity ∧
    b'.max_charge_rate = b.max_charge_rate ∧
    b'.charge_efficiency = b.charge_efficiency ∧
    b'.WF := by
  obtain ⟨hb, _, _, _⟩ := Battery.charge_ok_soc b request b' h
  subst hb
  exact ⟨rfl, rfl, rfl, rfl, rfl, rfl⟩

/-- C1: for every battery whose `charge_efficiency` is the square root of
its `round_trip_efficiency` and every request within the rate limit whose
result stays within bounds, `charge` succeeds; a non-negative request adds
exactly `request * charge_efficiency` to the state of charge, a negative
request adds exactly `request / charge_efficiency` (i.e. removes
`|request| / charge_efficiency`). -/
theorem C1_charge_semantics (b : Battery) (request : ℚ)
    (hsqnn : 0 ≤ b.charge_efficiency)
    (hsq : b.charge_efficiency * b.charge_efficiency = b.round_trip_efficiency)
    (hrate : |request| ≤ b.max_charge_rate)
    (hlo : 0 ≤ b.proposed request)
    (hhi : b.proposed request ≤ b.max_capacity) :
    ∃ b', b.charge request = .ok b' ∧
      b'.state_of_charge =
        (if 0 ≤ request then b.state_of_charge + request * b.charge_efficiency
         else b.state_of_charge + request / b.charge_efficiency) := by
  refine ⟨b.update_charge_values (b.proposed request), ?_, rfl⟩
  unfold Battery.charge
  simp [hrate, hlo, hhi]

/-- Witness for C1 at a concrete battery (capacity 10, rate 5, state of
charge 2, round-trip efficiency 81/100, hence charge efficiency 9/10):
charging by 1 lands at 2 + 9/10, discharging by 1 lands at 2 - 10/9. -/
theorem C1_witness :
    (∃ b', (Battery.init "w" 10 5 2 (81/100) (9/10)).charge 1 = .ok b' ∧
      b'.state_of_charge = 29/10) ∧
    (∃ b', (Battery.init "w" 10 5 2 (81/100) (9/10)).charge (-1) = .ok b' ∧
      b'.state_of_charge = 8/9) := by
  constructor
  · obtain ⟨b', h1, h2⟩ := C1_charge_semantics (Battery.init "w" 10 5 2 (81/100) (9/10)) 1
      (by norm_num [Battery.init, Battery.update_charge_values])
      (by norm_num [Battery.init, Battery.update_charge_values])
      (by norm_num [Battery.init, Battery.update_charge_values, abs])
      (by norm_num [Battery.init, Battery.update_charge_values, Battery.proposed])
      (by norm_num [Battery.init, Battery.update_charge_values, Battery.proposed])
    refine ⟨b', h1, ?_⟩
    rw [h2]
    norm_num [Battery.init, Battery.update_charge_values]
  · obtain ⟨b', h1, h2⟩ := C1_charge_semantics (Battery.init "w" 10 5 2 (81/100) (9/10)) (-1)
      (by norm_num [Battery.init, Battery.update_charge_values])
      (by norm_num [Battery.init, Battery.update_charge_values])
      (by norm_num [Battery.init, Battery.update_charge_values, abs])
      (by norm_num [Battery.init, Battery.update_charge_values, Battery.proposed])
      (by norm_num [Battery.init, Battery.update_charge_values, Battery.proposed])
    refine ⟨b', h1, ?_⟩
    rw [h2]
    norm_num [Battery.init, Battery.update_charge_values]

/-- C2: starting from a state of charge inside `[0, max_capacity]`, after
any sequence of `charge` calls that all pass their asserts the state of
charge is still inside `[0, max_capacity]`.  The request list is
universally quantified, so the bound holds in particular after every
prefix of a longer sequence, i.e. after every call. -/
theorem C2_soc_invariant (b : Battery) (rs : List ℚ) (b' : Battery)
    (h0 : 0 ≤ b.state_of_charge) (h1 : b.state_of_charge ≤ b.max_capacity)
    (h : b.chargeSeq rs = .ok b') :
    0 ≤ b'.state_of_charge ∧ b'.state_of_charge ≤ b'.max_capacity := by
  induction rs generalizing b with
  | nil =>
    unfold Battery.chargeSeq at h
    injection h with h
    subst h
    exact ⟨h0, h1⟩
  | cons r rs ih =>
    unfold Battery.chargeSeq at h
    cases hc : b.charge r with
    | error e => rw [hc] at h; exact absurd h (by simp)
    | ok b1 =>
      rw [hc] at h
      obtain ⟨hsoc, hcap, _, _, _⟩ := Battery.charge_ok_fields b r b1 hc
      obtain ⟨_, hplo, hphi, _⟩ := Battery.charge_ok_soc b r b1 hc
      exact ih b1 (hsoc ▸ hplo) (by rw [hsoc, hcap]; exact hphi) h

/-- Witness for C2: a concrete battery (capacity 10, rate 5, initial
charge 0, charge efficiency 9/10) run through the request sequence
`[1, -1/2, 2]`; all three calls succeed and the final state of charge
stays within bounds. -/
theorem C2_witness :
    ∃ b', (Battery.init "w" 10 5 0 (81/100) (9/10)).chargeSeq [1, -1/2, 2] = .ok b' ∧
      0 ≤ b'.state_of_charge ∧ b'.state_of_charge ≤ b'.max_capacity := by
  have h : (Battery.init "w" 10 5 0 (81/100) (9/10)).chargeSeq [1, -1/2, 2] =
      .ok ((((Battery.init "w" 10 5 0 (81/100) (9/10)).update_charge_values
        (9/10)).update_charge_values (31/90)).update_charge_values (193/90)) := by
    norm_num [Battery.chargeSeq, Battery.charge, Battery.proposed,
      Battery.update_charge_values, Battery.init, abs]
  refine ⟨_, h, ?_⟩
  exact C2_soc_invariant (Battery.init "w" 10 5 0 (81/100) (9/10)) [1, -1/2, 2] _
    (by norm_num [Battery.init, Battery.update_charge_values])
    (by norm_num [Battery.init, Battery.update_charge_values]) h

/-- C3: `charge` signals `InvalidRequest` exactly when the rate bound is
violated, `OverDischarge` exactly when the rate bound holds but the
proposed state of charge is negative, and `OverCharge` exactly when the
rate bound holds, the proposed charge is non-negative but exceeds
`max_capacity`; every error case returns `.error` and produces no new
battery, so the caller's battery — state of charge and derived values —
is untouched (the source mutates only after all three asserts pass).
Finally, on a well-formed battery with non-negative state of charge and
rate and positive efficiency, `available_store_cap < max_charge_rate`
forces `charge max_charge_rate` to signal `OverCharge`. -/
theorem C3_charge_error_characterisation (b : Battery) (request : ℚ) :
    (b.charge request = .error .InvalidRequest ↔ b.max_charge_rate < |request|) ∧
    (b.charge request = .error .OverDischarge ↔
      |request| ≤ b.max_charge_rate ∧ b.proposed request < 0) ∧
    (b.charge request = .error .OverCharge ↔
      |request| ≤ b.max_charge_rate ∧ 0 ≤ b.proposed request ∧
        b.max_capacity < b.proposed request) ∧
    ((∃ e, b.charge request = .error e) ↔
      ¬ (|request| ≤ b.max_charge_rate ∧ 0 ≤ b.proposed request ∧
         b.proposed request ≤ b.max_capacity)) ∧
    (b.WF → 0 ≤ b.state_of_charge → 0 < b.charge_efficiency →
      0 ≤ b.max_charge_rate → b.available_store_cap < b.max_charge_rate →
      b.charge b.max_charge_rate = .error .OverCharge) := by
  have hchar : ∀ r : ℚ,
      (b.charge r = .error .InvalidRequest ↔ b.max_charge_rate < |r|) ∧
      (b.charge r = .error .OverDischarge ↔
        |r| ≤ b.max_charge_rate ∧ b.proposed r < 0) ∧
      (b.charge r = .error .OverCharge ↔
        |r| ≤ b.max_charge_rate ∧ 0 ≤ b.proposed r ∧
          b.max_capacity < b.proposed r) ∧
      ((∃ e, b.charge r = .error e) ↔
        ¬ (|r| ≤ b.max_charge_rate ∧ 0 ≤ b.proposed r ∧
           b.proposed r ≤ b.max_capacity)) := by
    intro r
    unfold Battery.charge
    by_cases h1 : |r| ≤ b.max_charge_rate
    · by_cases h2 : 0 ≤ b.proposed r
      · by_cases h3 : b.proposed r ≤ b.max_capacity
        · simp [h1, h2, h3, not_lt.mpr h1, not_lt.mpr h3, not_lt.mpr h2]
        · simp [h1, h2, h3, not_lt.mpr h1, not_le.mp h3]
      · simp [h1, h2, not_lt.mpr h1, not_le.mp h2]
    · simp [h1, not_le.mp h1]
  obtain ⟨g1, g2, g3, g4⟩ := hchar request
  refine ⟨g1, g2, g3, g4, ?_⟩
  intro hwf hsoc heff hrate hasc
  obtain ⟨_, hascdef⟩ := hwf
  have hmul : b.max_capacity - b.state_of_charge <
      b.max_charge_rate * b.charge_efficiency := by
    have := (div_lt_iff heff).mp (hascdef ▸ hasc)
    linarith
  have hprop : b.proposed b.max_charge_rate =
      b.state_of_charge + b.max_charge_rate * b.charge_efficiency := by
    unfold Battery.proposed
    simp [hrate]
  exact (hchar b.max_charge_rate).2.2.1.mpr
    ⟨by rw [abs_of_nonneg hrate], by rw [hprop]; positivity,
     by rw [hprop]; linarith⟩

/-- Witness for C3: a battery with capacity 10, rate 5, state of charge 6
and charge efficiency 9/10 has `available_store_cap = 40/9 < 5`, and a
full-rate `charge 5` indeed signals `OverCharge`. -/
theorem C3_witness :
    (Battery.init "w" 10 5 6 (81/100) (9/10)).available_store_cap < 5 ∧
    (Battery.init "w" 10 5 6 (81/100) (9/10)).charge 5 = .error .OverCharge := by
  refine ⟨by norm_num [Battery.init, Battery.update_charge_values], ?_⟩
  exact (C3_charge_error_characterisation (Battery.init "w" 10 5 6 (81/100) (9/10)) 5).2.2.2.2
    (by constructor <;> norm_num [Battery.WF, Battery.init, Battery.update_charge_values])
    (by norm_num [Battery.init, Battery.update_charge_values])
    (by norm_num [Battery.init, Battery.update_charge_values])
    (by norm_num [Battery.init, Battery.update_charge_values])
    (by norm_num [Battery.init, Battery.update_charge_values])

/-- C10: `Battery.__init__` validates nothing: for every initial state of
charge — below 0 and above `max_capacity` included — construction is a
total function that signals no error, stores the initial state of charge
verbatim, and recomputes the derived values from it. -/
theorem C10_init_no_validation (model_name : String)
    (max_capacity max_charge_rate initial_state_of_charge
      round_trip_efficiency charge_efficiency : ℚ) :
    (Battery.init model_name max_capacity max_charge_rate
        initial_state_of_charge round_trip_efficiency charge_efficiency).state_of_charge =
      initial_state_of_charge ∧
    (Battery.init model_name max_capacity max_charge_rate
        initial_state_of_charge round_trip_efficiency charge_efficiency).available_to_discharge =
      initial_state_of_charge * charge_efficiency ∧
    (Battery.init model_name max_capacity max_charge_rate
        initial_state_of_charge round_trip_efficiency charge_efficiency).available_store_cap =
      (max_capacity - initial_state_of_charge) / charge_efficiency ∧
    (Battery.init model_name max_capacity max_charge_rate
        initial_state_of_charge round_trip_efficiency charge_efficiency).max_capacity =
      max_capacity ∧
    (Battery.init model_name max_capacity max_charge_rate
        initial_state_of_charge round_trip_efficiency charge_efficiency).max_charge_rate =
      max_charge_rate ∧
    (Battery.init model_name max_capacity max_charge_rate
        initial_state_of_charge round_trip_efficiency charge_efficiency).round_trip_efficiency =
      round_trip_efficiency ∧
    (Battery.init model_name max_capacity max_charge_rate
        initial_state_of_charge round_trip_efficiency charge_efficiency).charge_efficiency =
      charge_efficiency :=
  ⟨rfl, rfl, rfl, rfl, rfl, rfl, rfl⟩

/-- C4: the fixed-schedule controller's decision is
`-min(max_charge_rate, available_to_discharge, usage)` on a weekday
(pandas `dayofweek ≤ 4`) whose hour is in `peak_hours`,
`+min(max_charge_rate, available_store_cap)` otherwise when the hour is at
or after `trough_hour`, and `0` otherwise; and (last conjunct, stated on
the dispatching wrapper) it never changes the controller — the battery is
only read, the embedding being a pure function. -/
theorem C4_peaksimple_decide (c : controller_peaksimple) (df : List Row)
    (t : Datetime) (b : Battery) :
    (∀ u, t.hour ∈ c.peak_hours → t.dayofweek ≤ 4 → usageAt df t = some u →
      c.decide df t b =
        some (-1 * min b.max_charge_rate (min b.available_to_discharge u))) ∧
    (¬ (t.hour ∈ c.peak_hours ∧ t.dayofweek ≤ 4) → c.trough_hour ≤ t.hour →
      c.decide df t b = some (min b.max_charge_rate b.available_store_cap)) ∧
    (¬ (t.hour ∈ c.peak_hours ∧ t.dayofweek ≤ 4) → t.hour < c.trough_hour →
      c.decide df t b = some 0) ∧
    (∀ q c', Controller.decide (.peaksimple c) df t b = some (q, c') →
      c' = .peaksimple c) := by
  refine ⟨?_, ?_, ?_, ?_⟩
  · intro u hpk hwd hu
    unfold controller_peaksimple.decide
    simp [hpk, hwd, hu]
  · intro hnot htr
    unfold controller_peaksimple.decide
    simp [hnot, htr]
  · intro hnot htr
    unfold controller_peaksimple.decide
    simp [hnot, not_le.mpr htr]
  · intro q c' h
    simp only [Controller.decide] at h
    cases hd : controller_peaksimple.decide c df t b with
    | none => rw [hd] at h; exact absurd h (by simp)
    | some v => rw [hd] at h; simp at h; exact h.2.symm

/-- Witness for C4: with `peak_hours = [16, 17]`, `trough_hour = 2`, a
battery of rate 5 with `available_to_discharge = 9/2`, and usage 3 on a
Tuesday at hour 16, the decision is `-3`; the same Saturday hour falls
into the trough branch. -/
theorem C4_witness :
    controller_peaksimple.decide ⟨[16, 17], 2⟩
      [⟨⟨2018, 3, 13, 16, 1⟩, 3, 1⟩] ⟨2018, 3, 13, 16, 1⟩
      (Battery.init "w" 10 5 5 (81/100) (9/10)) = some (-3) := by
  have h := (C4_peaksimple_decide ⟨[16, 17], 2⟩
      [⟨⟨2018, 3, 13, 16, 1⟩, 3, 1⟩] ⟨2018, 3, 13, 16, 1⟩
      (Battery.init "w" 10 5 5 (81/100) (9/10))).1 3
      (by decide) (by decide) (by decide)
  rw [h]
  norm_num [Battery.init, Battery.update_charge_values, min_def]

/-- C5 as stated is false: with `peak_hours = [16, 17]` and
`trough_hour = 2`, a Saturday (pandas `dayofweek = 5`) at hour 16 skips
the weekday peak branch but then satisfies `hour ≥ trough_hour`
(`16 ≥ 2`), so the controller issues a positive charge request
`min(max_charge_rate, available_store_cap) = 5`, not the claimed `0` —
here on a battery with `available_to_discharge = 9/2 ≠ 0`. -/
theorem C5_counterexample :
    controller_peaksimple.decide ⟨[16, 17], 2⟩ [] ⟨2018, 3, 17, 16, 5⟩
      (Battery.init "b" 10 5 5 (81/100) (9/10)) = some 5 ∧
    (Battery.init "b" 10 5 5 (81/100) (9/10)).available_to_discharge ≠ 0 ∧
    ¬ controller_peaksimple.decide ⟨[16, 17], 2⟩ [] ⟨2018, 3, 17, 16, 5⟩
        (Battery.init "b" 10 5 5 (81/100) (9/10)) = some 0 := by
  have h : controller_peaksimple.decide ⟨[16, 17], 2⟩ [] ⟨2018, 3, 17, 16, 5⟩
      (Battery.init "b" 10 5 5 (81/100) (9/10)) = some 5 := by
    norm_num [controller_peaksimple.decide, Battery.init,
      Battery.update_charge_values, min_def]
  refine ⟨h, by norm_num [Battery.init, Battery.update_charge_values], ?_⟩
  rw [h]
  norm_num

/-- C5 amended: with `peak_hours = [16, 17]` and `trough_hour = 2`, a
Saturday at hour 16 yields the trough-branch request
`+min(max_charge_rate, available_store_cap)` — the weekend exemption only
skips peak discharge, it does not hold the charge — while a Tuesday at
hour 16 under the identical battery state yields exactly
`-min(max_charge_rate, available_to_discharge, usage)`. -/
theorem C5_amended_weekend_behaviour (df : List Row) (tSat tTue : Datetime)
    (b : Battery) (u : ℚ)
    (hSatH : tSat.hour = 16) (hSatD : tSat.dayofweek = 5)
    (hTueH : tTue.hour = 16) (hTueD : tTue.dayofweek = 1)
    (hu : usageAt df tTue = some u) :
    controller_peaksimple.decide ⟨[16, 17], 2⟩ df tSat b =
      some (min b.max_charge_rate b.available_store_cap) ∧
    controller_peaksimple.decide ⟨[16, 17], 2⟩ df tTue b =
      some (-1 * min b.max_charge_rate (min b.available_to_discharge u)) := by
  constructor
  · unfold controller_peaksimple.decide
    simp [hSatH, hSatD]
  · unfold controller_peaksimple.decide
    simp [hTueH, hTueD, hu]

/-- Witness for the amended C5 at a concrete Saturday/Tuesday pair and
battery: the Saturday request is `5` (strictly positive) and the Tuesday
request is `-3`. -/
theorem C5_amended_witness :
    controller_peaksimple.decide ⟨[16, 17], 2⟩
      [⟨⟨2018, 3, 13, 16, 1⟩, 3, 1⟩] ⟨2018, 3, 17, 16, 5⟩
      (Battery.init "b" 10 5 5 (81/100) (9/10)) = some 5 ∧
    controller_peaksimple.decide ⟨[16, 17], 2⟩
      [⟨⟨2018, 3, 13, 16, 1⟩, 3, 1⟩] ⟨2018, 3, 13, 16, 1⟩
      (Battery.init "b" 10 5 5 (81/100) (9/10)) = some (-3) := by
  obtain ⟨h1, h2⟩ := C5_amended_weekend_behaviour
    [⟨⟨2018, 3, 13, 16, 1⟩, 3, 1⟩] ⟨2018, 3, 17, 16, 5⟩ ⟨2018, 3, 13, 16, 1⟩
    (Battery.init "b" 10 5 5 (81/100) (9/10)) 3
    rfl rfl rfl rfl (by decide)
  refine ⟨?_, ?_⟩
  · rw [h1]
    norm_num [Battery.init, Battery.update_charge_values, min_def]
  · rw [h2]
    norm_num [Battery.init, Battery.update_charge_values, min_def]

theorem controller_dailythresh.decide_snd (c : controller_dailythresh)
    (df : List Row) (t : Datetime) (b : Battery) (q : ℚ)
    (c' : controller_dailythresh) (h : c.decide df t b = some (q, c')) :
    c' = if t.hour = 0 then c.update_thresh (dayRows df t) else c := by
  unfold controller_dailythresh.decide at h
  set c1 := if t.hour = 0 then c.update_thresh (dayRows df t) else c with hc1
  cases hp : priceAt df t with
  | none => rw [hp] at h; simp at h
  | some p =>
    rw [hp] at h
    simp only at h
    split_ifs at h with h1 h2
    · cases hu : usageAt df t with
      | none => rw [hu] at h; simp at h
      | some u => rw [hu] at h; simp at h; exact h.2.symm
    · simp at h; exact h.2.symm
    · simp at h; exact h.2.symm

/-- C6 as stated is false on the seeding half: `__init__` seeds the
thresholds by `update_thresh` over the whole dataframe it was handed — in
`simulate`, the entire series — not over the series' first day.  On the
concrete two-day series, the high threshold seeded at construction with
quantile 1 is the whole-series maximum 6, whereas the first day's values
give 2. -/
theorem C6_counterexample :
    (controller_dailythresh.init dfTwoDays 1 0).thresh_high_price = 6 ∧
    quantile ((dayRows dfTwoDays ⟨2018, 1, 1, 0, 0⟩).map Row.apparent_price) 1 = 2 ∧
    (6 : ℚ) ≠ 2 := by
  refine ⟨?_, ?_, by norm_num⟩
  · have e1 : (controller_dailythresh.init dfTwoDays 1 0).thresh_high_price
        = quantile (dfTwoDays.map Row.apparent_price) 1 := rfl
    rw [e1]
    norm_num [dfTwoDays, quantile, sortQ, sortedInsert]
    simp
  · norm_num [dayRows, dfTwoDays, quantile, sortQ, sortedInsert, List.filter]

/-- C6 amended: at construction the thresholds are seeded as the
configured quantiles of the WHOLE series' apparent prices; at every
`decide` whose hour-of-day is 0 they are recomputed from that single
calendar day's apparent prices before the decision is taken, and at every
other hour the cached thresholds are left unchanged.  So a day's own
quantiles are in effect only from that day's hour-0 recomputation onward;
before the first such recomputation the whole-series quantiles are in
effect. -/
theorem C6_amended_threshold_provenance (df : List Row) (hq lq : ℚ)
    (c : controller_dailythresh) (t : Datetime) (b : Battery) (q : ℚ)
    (c' : controller_dailythresh) :
    ((controller_dailythresh.init df hq lq).thresh_high_price =
        quantile (df.map Row.apparent_price) hq ∧
      (controller_dailythresh.init df hq lq).thresh_low_price =
        quantile (df.map Row.apparent_price) lq) ∧
    (t.hour = 0 → c.decide df t b = some (q, c') →
      c'.thresh_high_price =
        quantile ((dayRows df t).map Row.apparent_price) c.thresh_high_quant ∧
      c'.thresh_low_price =
        quantile ((dayRows df t).map Row.apparent_price) c.thresh_low_quant) ∧
    (t.hour ≠ 0 → c.decide df t b = some (q, c') → c' = c) := by
  refine ⟨⟨rfl, rfl⟩, ?_, ?_⟩
  · intro ht hdec
    have hc' := controller_dailythresh.decide_snd c df t b q c' hdec
    rw [if_pos ht] at hc'
    subst hc'
    exact ⟨rfl, rfl⟩
  · intro ht hdec
    have hc' := controller_dailythresh.decide_snd c df t b q c' hdec
    rw [if_neg ht] at hc'
    exact hc'

/-- Witness for the amended C6: on the two-day series with quantiles
(1, 0), the controller seeded at construction carries the whole-series
thresholds (6, 1); its hour-0 decision on day two returns the controller
recalibrated to day two's own quantiles (6, 5). -/
theorem C6_amended_witness :
    (controller_dailythresh.init dfTwoDays 1 0).decide dfTwoDays
      ⟨2018, 1, 2, 0, 1⟩ (Battery.init "w" 10 5 5 (81/100) (9/10)) =
      some (0, ⟨1, 0, 6, 5⟩) ∧
    (⟨1, 0, 6, 5⟩ : controller_dailythresh).thresh_high_price =
      quantile ((dayRows dfTwoDays ⟨2018, 1, 2, 0, 1⟩).map Row.apparent_price)
        (controller_dailythresh.init dfTwoDays 1 0).thresh_high_quant ∧
    (⟨1, 0, 6, 5⟩ : controller_dailythresh).thresh_low_price =
      quantile ((dayRows dfTwoDays ⟨2018, 1, 2, 0, 1⟩).map Row.apparent_price)
        (controller_dailythresh.init dfTwoDays 1 0).thresh_low_quant := by
  have hdec : (controller_dailythresh.init dfTwoDays 1 0).decide dfTwoDays
      ⟨2018, 1, 2, 0, 1⟩ (Battery.init "w" 10 5 5 (81/100) (9/10)) =
      some (0, ⟨1, 0, 6, 5⟩) := by
    norm_num [controller_dailythresh.decide, controller_dailythresh.init,
      controller_dailythresh.update_thresh, quantile, sortQ, sortedInsert,
      dayRows, dfTwoDays, priceAt, usageAt, List.find?, List.filter]
  have h := (C6_amended_threshold_provenance dfTwoDays 1 0
    (controller_dailythresh.init dfTwoDays 1 0) ⟨2018, 1, 2, 0, 1⟩
    (Battery.init "w" 10 5 5 (81/100) (9/10)) 0 ⟨1, 0, 6, 5⟩).2.1 rfl hdec
  exact ⟨hdec, h.1, h.2⟩

/-- C7 as stated is false: charging a battery that starts at state of
charge 1 by `x = 1` and then discharging the full resulting
`available_to_discharge` leaves the state of charge at exactly 0, not at
the pre-charge value 1 — a discrepancy of a whole kWh, far beyond any
floating-point tolerance. -/
theorem C7_counterexample :
    chargeThenDischargeAll (Battery.init "w" 10 10 1 (81/100) (9/10)) 1 = some 0 ∧
    (Battery.init "w" 10 10 1 (81/100) (9/10)).state_of_charge = 1 ∧
    (0 : ℚ) ≠ 1 := by
  refine ⟨?_, by norm_num [Battery.init, Battery.update_charge_values], by norm_num⟩
  norm_num [chargeThenDischargeAll, Battery.charge, Battery.init,
    Battery.update_charge_values, Battery.proposed, abs, Except.toOption]

/-- C7 amended: on any battery with positive charge efficiency, charging
by `x` and then discharging the full post-charge `available_to_discharge`
(when both calls pass their asserts) drains the battery to state of
charge exactly 0 — it returns to the pre-charge value only when that
value was 0.  (Discharging only the charge-induced increase of
`available_to_discharge`, i.e. `x * round_trip_efficiency`, would return
to the pre-charge value.) -/
theorem C7_amended_roundtrip_drains (b : Battery) (x s' : ℚ)
    (heff : 0 < b.charge_efficiency)
    (h : chargeThenDischargeAll b x = some s') : s' = 0 := by
  unfold chargeThenDischargeAll at h
  cases hc : b.charge x with
  | error e => rw [hc] at h; simp [Except.toOption] at h
  | ok b1 =>
    rw [hc] at h
    simp only [Except.toOption, Option.bind] at h
    obtain ⟨hb1, hp0, _, _⟩ := Battery.charge_ok_soc b x b1 hc
    cases hc2 : b1.charge (-1 * b1.available_to_discharge) with
    | error e => rw [hc2] at h; simp [Except.toOption] at h
    | ok b2 =>
      rw [hc2] at h
      simp [Except.toOption] at h
      obtain ⟨hb2soc, _, _, _, _⟩ := Battery.charge_ok_fields b1 _ b2 hc2
      subst hb1
      rw [← h, hb2soc]
      have heffne : b.charge_efficiency ≠ 0 := ne_of_gt heff
      set p := b.proposed x with hpdef
      simp only [Battery.update_charge_values, Battery.proposed]
      split_ifs with hsign
      · have hze : p * b.charge_efficiency = 0 := by
          refine le_antisymm (by nlinarith) (by positivity)
        rcases mul_eq_zero.mp hze with hz | hz
        · rw [hz]; ring
        · exact absurd hz heffne
      · field_simp

/-- Witness for the amended C7: the concrete round trip from state of
charge 1 ends at exactly 0. -/
theorem C7_amended_witness :
    ∃ s', chargeThenDischargeAll (Battery.init "w" 10 10 1 (81/100) (9/10)) 1 =
      some s' ∧ s' = 0 := by
  have h : chargeThenDischargeAll (Battery.init "w" 10 10 1 (81/100) (9/10)) 1 =
      some 0 := by
    norm_num [chargeThenDischargeAll, Battery.charge, Battery.init,
      Battery.update_charge_values, Battery.proposed, abs, Except.toOption]
  exact ⟨0, h, C7_amended_roundtrip_drains
    (Battery.init "w" 10 10 1 (81/100) (9/10)) 1 0
    (by norm_num [Battery.init, Battery.update_charge_values]) h⟩

/-- C9: `make_controller` with any string other than `"daily_threshold"`
and `"simple_peak"` fails at construction time — the source's `if/elif`
leaves `obj` unassigned and `return obj` raises — so no controller object
is ever produced for an unknown tag and no `decide` call can be reached. -/
theorem C9_unknown_controller_type (controller_type : String) (df : List Row)
    (thresh_high_quant thresh_low_quant : ℚ) (peak_hours : List ℕ)
    (trough_hour : ℕ)
    (h1 : controller_type ≠ "daily_threshold")
    (h2 : controller_type ≠ "simple_peak") :
    make_controller controller_type df thresh_high_quant thresh_low_quant
      peak_hours trough_hour = .error .UnknownControllerType := by
  unfold make_controller
  rw [if_neg h1, if_neg h2]

/-- Witness for C9 at the concrete unknown tag `"pid"`. -/
theorem C9_witness :
    make_controller "pid" [] 1 0 [16, 17] 2 = .error .UnknownControllerType :=
  C9_unknown_controller_type "pid" [] 1 0 [16, 17] 2 (by decide) (by decide)

theorem simLoop_stepChain (df : List Row) (rows : List Row) :
    ∀ (b : Battery) (c : Controller) (res : List ResultRow) (bf : Battery)
      (cf : Controller), simLoop df b c rows = .ok (res, bf, cf) →
      StepChain df b c rows res bf cf := by
  induction rows with
  | nil =>
    intro b c res bf cf h
    unfold simLoop at h
    simp at h
    obtain ⟨h1, h2, h3⟩ := h
    subst h1; subst h2; subst h3
    exact StepChain.nil b c
  | cons r rs ih =>
    intro b c res bf cf h
    unfold simLoop at h
    cases hs : step_result_df df b c r with
    | error e => rw [hs] at h; simp at h
    | ok v =>
      obtain ⟨rr, b', c'⟩ := v
      rw [hs] at h
      dsimp only at h
      cases hl : simLoop df b' c' rs with
      | error e => rw [hl] at h; simp at h
      | ok w =>
        obtain ⟨res', bf', cf'⟩ := w
        rw [hl] at h
        simp at h
        obtain ⟨h1, h2, h3⟩ := h
        subst h1; subst h2; subst h3
        unfold step_result_df at hs
        cases hd : c.decide df r.dt b with
        | none => rw [hd] at hs; simp at hs
        | some qc =>
          obtain ⟨q, c''⟩ := qc
          rw [hd] at hs
          dsimp only at hs
          cases hc : b.charge q with
          | error e => rw [hc] at hs; simp at hs
          | ok b'' =>
            rw [hc] at hs
            simp at hs
            obtain ⟨hrr, hb', hc'⟩ := hs
            subst hb'; subst hc'
            exact StepChain.cons b c r rs rr res' bf' b'' cf' c'' q
              (by rw [← hrr]) (by rw [← hrr]) (by rw [← hrr]) (by rw [← hrr])
              (by rw [← hrr]) hd hc (ih b'' c'' res' bf' cf' hl)

theorem StepChain.rows_eq {df : List Row} {b : Battery} {c : Controller}
    {rows : List Row} {res : List ResultRow} {bf : Battery} {cf : Controller}
    (h : StepChain df b c rows res bf cf) : res.map ResultRow.row = rows := by
  induction h with
  | nil => rfl
  | cons b c r rs rr res bf b' cf c' q hrow hsoc hatd hasc hdec hdecide hcharge
      hrest ih =>
    simp only [List.map_cons]
    rw [hrow, ih]

/-- C8: whenever the fold over the series completes, it followed the
series row by row in order (the recorded rows come back in the series'
own — chronological — order): for each hour it recorded the battery's
pre-decision state of charge, available-to-discharge and
available-store-capacity, obtained exactly one controller decision,
applied it through exactly one successful `Battery.charge` call whose
output battery feeds the next hour, and `simulate` returns that result
series extended with a net-electricity-purchased column equal to
usage + charge decision on every hour. -/
theorem C8_simulate_stepping (df : List Row) (b : Battery) (c : Controller)
    (res : List ResultRow) (bf : Battery) (cf : Controller)
    (h : simLoop df b c df = .ok (res, bf, cf)) :
    StepChain df b c df res bf cf ∧
    res.map ResultRow.row = df ∧
    simulate df b c = .ok (withNet res) ∧
    ∀ pr ∈ withNet res, pr.2 = pr.1.row.usage + pr.1.charge_decision := by
  have hchain := simLoop_stepChain df df b c res bf cf h
  refine ⟨hchain, hchain.rows_eq, ?_, ?_⟩
  · unfold simulate
    rw [h]
  · intro pr hpr
    unfold withNet at hpr
    simp only [List.mem_map] at hpr
    obtain ⟨rr, _, rfl⟩ := hpr
    rfl

/-- Witness for C8: a one-hour series stepped with the fixed-schedule
controller holding (hour 3, trough hour 5, no peak hours, decision 0);
the recorded pre-decision state is (1, 9/10, 10), the battery is
recharged to the identical state, and the net purchased column equals
usage + decision = 2. -/
theorem C8_witness :
    StepChain [⟨⟨2018, 1, 1, 3, 0⟩, 2, 1/10⟩]
      (Battery.init "w" 10 5 1 (81/100) (9/10)) (Controller.peaksimple ⟨[], 5⟩)
      [⟨⟨2018, 1, 1, 3, 0⟩, 2, 1/10⟩]
      [⟨⟨⟨2018, 1, 1, 3, 0⟩, 2, 1/10⟩, 1, 9/10, 10, 0⟩]
      (Battery.init "w" 10 5 1 (81/100) (9/10))
      (Controller.peaksimple ⟨[], 5⟩) ∧
    List.map ResultRow.row [⟨⟨⟨2018, 1, 1, 3, 0⟩, 2, 1/10⟩, 1, 9/10, 10, 0⟩] =
      [⟨⟨2018, 1, 1, 3, 0⟩, 2, 1/10⟩] ∧
    simulate [⟨⟨2018, 1, 1, 3, 0⟩, 2, 1/10⟩]
      (Battery.init "w" 10 5 1 (81/100) (9/10)) (Controller.peaksimple ⟨[], 5⟩) =
      .ok (withNet [⟨⟨⟨2018, 1, 1, 3, 0⟩, 2, 1/10⟩, 1, 9/10, 10, 0⟩]) ∧
    ∀ pr ∈ withNet [⟨⟨⟨2018, 1, 1, 3, 0⟩, 2, 1/10⟩, 1, 9/10, 10, 0⟩],
      pr.2 = pr.1.row.usage + pr.1.charge_decision := by
  have hsim : simLoop [⟨⟨2018, 1, 1, 3, 0⟩, 2, 1/10⟩]
      (Battery.init "w" 10 5 1 (81/100) (9/10)) (Controller.peaksimple ⟨[], 5⟩)
      [⟨⟨2018, 1, 1, 3, 0⟩, 2, 1/10⟩] =
      .ok ([⟨⟨⟨2018, 1, 1, 3, 0⟩, 2, 1/10⟩, 1, 9/10, 10, 0⟩],
        Battery.init "w" 10 5 1 (81/100) (9/10),
        Controller.peaksimple ⟨[], 5⟩) := by
    norm_num [simLoop, step_result_df, Controller.decide,
      controller_peaksimple.decide, Battery.charge, Battery.proposed,
      Battery.init, Battery.update_charge_values, abs]
  exact C8_simulate_stepping [⟨⟨2018, 1, 1, 3, 0⟩, 2, 1/10⟩]
    (Battery.init "w" 10 5 1 (81/100) (9/10)) (Controller.peaksimple ⟨[], 5⟩)
    [⟨⟨⟨2018, 1, 1, 3, 0⟩, 2, 1/10⟩, 1, 9/10, 10, 0⟩]
    (Battery.init "w" 10 5 1 (81/100) (9/10)) (Controller.peaksimple ⟨[], 5⟩)
    hsim

